import Mathlib

/-!
Shallow embedding of `tournaments/utils.py` (Laggrons-Dumb-Cogs), the helper
module of a Discord tournament cog: command-gating decorators
(`credentials_check`, `only_phase`), the permission predicate (`mod_or_to`),
the bounded HTTP retry wrapper (`async_http_retry`), and the interactive
confirmation prompt (`prompt_yes_or_no`).

External collaborators (the discord/Red command framework, the Challonge
client, asyncio) are modelled by their observable behaviour at the call
sites that the module actually uses: a before-invoke hook either returns or
raises `commands.UserFeedbackCheckFailure`, awaiting the Challonge coroutine
yields a value or raises a `ChallongeException`/`asyncio.TimeoutError`, and
`bot.wait_for` delivers the first event passing the check within the
timeout.
-/

namespace Tournaments

/-- Result of a `before_invoke` hook: either it returns normally (the
command proceeds) or it raises `commands.UserFeedbackCheckFailure` carrying
a user-facing message. -/
inductive HookResult where
  | ok
  | userFeedbackFailure (msg : String)
  deriving DecidableEq, Repr

/-- The i18n template of `credentials_check`, with `{prefix}` already
substituted by `ctx.clean_prefix` (the two adjacent Python string literals
are one literal after parsing). -/
def credentialsMessage (pfx : String) : String :=
  "You need to set your Challonge credentials before using this command! Use `"
    ++ pfx ++ "help challongeset` for more info."

/-- The hook installed by `credentials_check`: fetches the guild's stored
credential mapping and raises `UserFeedbackCheckFailure` when
`any([x is None for x in credentials.values()])`.  `credentials` models the
stored mapping as named entries with optional values; `pfx` models
`ctx.clean_prefix`. -/
def credentials_check_hook (pfx : String)
    (credentials : List (String × Option String)) : HookResult :=
  if (credentials.map Prod.snd).any (fun x => x.isNone) then
    .userFeedbackFailure (credentialsMessage pfx)
  else
    .ok

/-- The fields of the external `Tournament` object that `utils.py` reads:
the current phase and the optional organizer (T.O.) role. -/
structure Tournament where
  phase : String
  to_role : Option Nat
  deriving DecidableEq, Repr

/-- The hook installed by `only_phase(*allowed_phases)`: looks the guild up
in `cog.tournaments` (a `KeyError` is modelled by `none`), raises
"There's no ongoing tournament." when absent, returns when
`allowed_phases` is empty, and otherwise raises the generic failure unless
the tournament's phase is in `allowed_phases`. -/
def only_phase_hook (allowed_phases : List String)
    (tournaments : Nat → Option Tournament) (guildId : Nat) : HookResult :=
  match tournaments guildId with
  | none => .userFeedbackFailure "There's no ongoing tournament."
  | some tournament =>
    if allowed_phases.isEmpty then
      .ok
    else if tournament.phase ∈ allowed_phases then
      .ok
    else
      .userFeedbackFailure "This command cannot be executed right now."

/-- The guild fields read by `mod_or_to`. -/
structure Guild where
  id : Nat
  owner_id : Nat
  deriving DecidableEq, Repr

/-- The invocation-context facts consulted by `mod_or_to`'s check, in the
order the code reads them: `ctx.guild`, `ctx.author.id`,
`ctx.author.guild_permissions.administrator`, `await ctx.bot.is_mod(...)`,
`await ctx.bot.is_owner(...)`, `ctx.cog.tournaments` and
`ctx.author.roles` (as role ids). -/
structure CheckContext where
  guild : Option Guild
  author_id : Nat
  author_is_admin : Bool
  author_roles : List Nat
  bot_is_mod : Bool
  bot_is_owner : Bool
  tournaments : Nat → Option Tournament

/-- The check registered by `mod_or_to()`: a total boolean predicate over
the invocation context, evaluated top to bottom with early exit. -/
def mod_or_to_check (ctx : CheckContext) : Bool :=
  match ctx.guild with
  | none => false
  | some guild =>
    if ctx.author_id == guild.owner_id then true
    else if ctx.author_is_admin then true
    else if ctx.bot_is_mod then true
    else if ctx.bot_is_owner then true
    else
      match ctx.tournaments guild.id with
      | none => false
      | some tournament =>
        match tournament.to_role with
        | none => false
        | some role => ctx.author_roles.contains role

/-- Outcome of awaiting the pending Challonge operation for the `n`-th
time: it returns a value, raises a `ChallongeException` whose `str` is
`msg`, or raises `asyncio.exceptions.TimeoutError`.  Indexing by the
attempt lets us speak about an operation that would succeed if awaited a
second time — the code's `range(1)` loop only ever consults index 0. -/
inductive AwaitOutcome (α : Type) where
  | success (v : α)
  | challongeError (msg : String)
  | timeoutError
  deriving DecidableEq, Repr

/-- An exception value as captured in `last_exc` / re-raised. -/
inductive Exc where
  | challonge (msg : String)
  | timeout
  deriving DecidableEq, Repr

/-- How `async_http_retry` terminates: returning the awaited value,
propagating an exception unchanged (`raise` inside the except clause), or
raising `asyncio.TimeoutError from last_exc` after the loop exhausts. -/
inductive RetryOutcome (α : Type) where
  | ok (v : α)
  | raised (e : Exc)
  | chainedTimeout (cause : Option Exc)
  deriving DecidableEq, Repr

/-- Observable effects of `async_http_retry`: how many times the coroutine
was awaited and which `asyncio.sleep` delays were performed. -/
structure RetryTrace where
  awaits : Nat
  sleeps : List Nat
  deriving DecidableEq, Repr

/-- Helper of `strContains`: is `needle` contiguous in the haystack? -/
def strContainsAux (needle : List Char) : List Char → Bool
  | [] => needle.isEmpty
  | c :: rest => needle.isPrefixOf (c :: rest) || strContainsAux needle rest

/-- `"504" in str(e)`: substring test on the exception message. -/
def strContains (s sub : String) : Bool :=
  strContainsAux sub.toList s.toList

/-- The body of `async_http_retry`'s `for retry in range(1): ... else:`
loop.  The first argument of the pair models `range(1)` (the remaining
retry indices); `last_exc` and the trace are threaded explicitly.  When the
index list exhausts, the `for/else` clause raises
`asyncio.TimeoutError from last_exc`. -/
def async_http_retry.go {α : Type} (coro : Nat → AwaitOutcome α) :
    List Nat → Option Exc → RetryTrace → RetryOutcome α × RetryTrace
  | [], last_exc, tr => (.chainedTimeout last_exc, tr)
  | retry :: rest, _last_exc, tr =>
    match coro tr.awaits with
    | .success v => (.ok v, { tr with awaits := tr.awaits + 1 })
    | .challongeError msg =>
      if strContains msg "504" then
        async_http_retry.go coro rest (some (.challonge msg))
          { awaits := tr.awaits + 1, sleeps := tr.sleeps ++ [1 + retry] }
      else
        (.raised (.challonge msg), { tr with awaits := tr.awaits + 1 })
    | .timeoutError =>
      async_http_retry.go coro rest (some .timeout) { tr with awaits := tr.awaits + 1 }

/-- `async_http_retry(coro)`: `last_exc = None`, then the loop over
`range(1)`, i.e. the single retry index `0`. -/
def async_http_retry {α : Type} (coro : Nat → AwaitOutcome α) :
    RetryOutcome α × RetryTrace :=
  async_http_retry.go coro (List.range 1) none ⟨0, []⟩

/-- The fields of a discord interaction event that `prompt_yes_or_no`
reads: `interaction.user.id` and `interaction.data.get("custom_id")` (the
latter is `None` for interactions carrying no custom id, hence `Option`). -/
structure Interaction where
  user_id : Nat
  custom_id : Option String
  deriving DecidableEq, Repr

/-- The invocation-context fields read by `prompt_yes_or_no`:
`ctx.message.id` and `ctx.author.id`. -/
structure PromptCtx where
  message_id : Nat
  author_id : Nat
  deriving DecidableEq, Repr

/-- `custom_id=f"yes-{ctx.message.id}"` of the approve button. -/
def approve_custom_id (ctx : PromptCtx) : String :=
  "yes-" ++ toString ctx.message_id

/-- `custom_id=f"no-{ctx.message.id}"` of the deny button. -/
def deny_custom_id (ctx : PromptCtx) : String :=
  "no-" ++ toString ctx.message_id

/-- The `check_same_user` closure: accept only interactions authored by
the command invoker.  (This is the only filter given to `wait_for`; the
custom id is not consulted here.) -/
def check_same_user (ctx : PromptCtx) (interaction : Interaction) : Bool :=
  interaction.user_id == ctx.author_id

/-- `bot.wait_for("interaction", check=check, timeout=timeout)` over a
stream of events given as `(arrival time, interaction)` pairs in arrival
order: the first event that arrives before the deadline and passes the
check resolves the wait; events failing the check are skipped without
affecting the deadline. -/
def wait_for (check : Interaction → Bool) (timeout : Nat)
    (events : List (Nat × Interaction)) : Option Interaction :=
  (events.find? (fun e => decide (e.1 < timeout) && check e.2)).map Prod.snd

/-- How the `await bot.wait_for(...)` line terminates: with an interaction,
with `asyncio.TimeoutError` (caught by the except clause), or with some
other unexpected exception, which no except clause matches and which
propagates to the caller after the finally clause runs. -/
inductive WaitOutcome where
  | got (i : Interaction)
  | timedOut
  | failed
  deriving DecidableEq, Repr

/-- The wait outcome produced by an event stream (never `.failed`; the
`.failed` case exists so the cleanup guarantee can be stated for
unexpected errors too). -/
def runWait (check : Interaction → Bool) (timeout : Nat)
    (events : List (Nat × Interaction)) : WaitOutcome :=
  match wait_for check timeout events with
  | some i => .got i
  | none => .timedOut

/-- State of the prompt message: its content, embed (an opaque handle) and
whether it still bears the button view. -/
structure MessageState where
  content : Option String
  embed : Option Nat
  has_view : Bool
  deriving DecidableEq, Repr

/-- Observable effects of one `prompt_yes_or_no` call: the follow-up
notices sent via `ctx.send` (in order), how often the prompt message was
deleted and edited, and its final state (`none` once deleted). -/
structure PromptEffects where
  notices : List String
  deletes : Nat
  edits : Nat
  message : Option MessageState
  deriving DecidableEq, Repr

/-- How `prompt_yes_or_no` terminates: returning a boolean, or letting an
unexpected exception propagate (after the finally clause). -/
inductive PromptResult where
  | returned (b : Bool)
  | raised
  deriving DecidableEq, Repr

/-- The `try/except/else/finally` of `prompt_yes_or_no`, given the outcome
`w` of the `wait_for` line.  The except clause sends "Request timed out."
and returns `False`; the else clause returns `True` when the custom id is
the approve id and otherwise optionally sends "Cancelled." and returns
`False`; the finally clause runs on every path: it deletes the message
when `delete_after`, else edits it with
`content=message.content, embed=embed, view=None`. -/
def prompt_core (content : Option String) (embed : Option Nat)
    (delete_after negative_response : Bool) (ctx : PromptCtx)
    (w : WaitOutcome) : PromptResult × PromptEffects :=
  let body : PromptResult × List String :=
    match w with
    | .timedOut => (.returned false, ["Request timed out."])
    | .got x =>
      if x.custom_id == some (approve_custom_id ctx) then
        (.returned true, [])
      else if negative_response then
        (.returned false, ["Cancelled."])
      else
        (.returned false, [])
    | .failed => (.raised, [])
  if delete_after then
    (body.1, { notices := body.2, deletes := 1, edits := 0, message := none })
  else
    (body.1,
      { notices := body.2, deletes := 0, edits := 1,
        message := some { content := content, embed := embed, has_view := false } })

/-- `prompt_yes_or_no(ctx, content, embed=embed, timeout=timeout,
delete_after=delete_after, negative_response=negative_response)` run
against an event stream: send the message with the two buttons, await the
first same-user interaction within the timeout, then dispatch on it. -/
def prompt_yes_or_no (ctx : PromptCtx) (content : Option String)
    (embed : Option Nat) (timeout : Nat)
    (delete_after negative_response : Bool)
    (events : List (Nat × Interaction)) : PromptResult × PromptEffects :=
  prompt_core content embed delete_after negative_response ctx
    (runWait (check_same_user ctx) timeout events)

/-! ## Helper lemmas -/

/-- `List.range 1` is the single retry index `0`. -/
theorem range_one : List.range 1 = [0] := rfl

/-- `runWait` only ever reports an interaction or a timeout; the
`.failed` constructor models an injected unexpected error. -/
theorem runWait_ne_failed (check : Interaction → Bool) (timeout : Nat)
    (events : List (Nat × Interaction)) :
    runWait check timeout events ≠ .failed := by
  unfold runWait
  cases wait_for check timeout events <;> simp

/-- `prompt_core` on an interaction bearing the approve id: returns
`True`, no follow-up notice. -/
theorem prompt_core_got_approve (content : Option String) (embed : Option Nat)
    (delete_after negative_response : Bool) (ctx : PromptCtx) (i : Interaction)
    (hid : i.custom_id = some (approve_custom_id ctx)) :
    (prompt_core content embed delete_after negative_response ctx (.got i)).1
        = .returned true ∧
    (prompt_core content embed delete_after negative_response ctx (.got i)).2.notices
        = [] := by
  cases delete_after <;> simp [prompt_core, hid]

/-- `prompt_core` on an interaction whose custom id is not the approve id
(the deny id, or any other id): returns `False` and sends "Cancelled."
exactly when `negative_response`. -/
theorem prompt_core_got_other (content : Option String) (embed : Option Nat)
    (delete_after negative_response : Bool) (ctx : PromptCtx) (i : Interaction)
    (hid : i.custom_id ≠ some (approve_custom_id ctx)) :
    (prompt_core content embed delete_after negative_response ctx (.got i)).1
        = .returned false ∧
    (prompt_core content embed delete_after negative_response ctx (.got i)).2.notices
        = (if negative_response then ["Cancelled."] else []) := by
  cases delete_after <;> cases negative_response <;> simp [prompt_core, hid]

/-- `prompt_core` on a timeout: returns `False` and sends exactly one
"Request timed out." notice. -/
theorem prompt_core_timed_out (content : Option String) (embed : Option Nat)
    (delete_after negative_response : Bool) (ctx : PromptCtx) :
    (prompt_core content embed delete_after negative_response ctx .timedOut).1
        = .returned false ∧
    (prompt_core content embed delete_after negative_response ctx .timedOut).2.notices
        = ["Request timed out."] := by
  cases delete_after <;> simp [prompt_core]

/-- Dropping the events that fail the check does not change what `find?`
with a conjunction of that check and any other test returns. -/
theorem find?_filter_of_check (check : Interaction → Bool) (timeout : Nat)
    (events : List (Nat × Interaction)) :
    (events.filter (fun e => check e.2)).find?
        (fun e => decide (e.1 < timeout) && check e.2)
      = events.find? (fun e => decide (e.1 < timeout) && check e.2) := by
  induction events with
  | nil => rfl
  | cons e es ih =>
    by_cases hc : check e.2
    · by_cases ht : e.1 < timeout <;>
        simp [List.filter_cons, List.find?_cons, hc, ht, ih]
    · simp [List.filter_cons, List.find?_cons, hc, ih]

/-! ## Claim theorems -/

/-- C1: when awaiting the operation raises a `ChallongeException` whose
message contains "504", or raises `asyncio.TimeoutError`, the
single-iteration `range(1)` loop of `async_http_retry` exhausts and the
call raises `asyncio.TimeoutError from last_exc`, the cause being that
captured error.  The hypotheses constrain only attempt 0, so the theorem
covers in particular an operation that would succeed on a second attempt
(`awaits = 1` in the trace: the operation is never awaited again). -/
theorem async_http_retry_exhausts_to_chained_timeout {α : Type}
    (coro : Nat → AwaitOutcome α) :
    (∀ msg, coro 0 = .challongeError msg → strContains msg "504" = true →
      async_http_retry coro
        = (.chainedTimeout (some (.challonge msg)), ⟨1, [1]⟩)) ∧
    (coro 0 = .timeoutError →
      async_http_retry coro = (.chainedTimeout (some .timeout), ⟨1, []⟩)) := by
  constructor
  · intro msg h h504
    simp [async_http_retry, range_one, async_http_retry.go, h, h504]
  · intro h
    simp [async_http_retry, range_one, async_http_retry.go, h]

/-- Witness for C1: an operation that raises a 504-flavoured
`ChallongeException` (resp. a local timeout) on the first await and would
return 42 on any later await still ends in the chained timeout. -/
theorem async_http_retry_exhausts_to_chained_timeout_witness :
    async_http_retry
        (fun n => if n = 0 then AwaitOutcome.challongeError "HTTP 504" else .success (42 : Nat))
      = (.chainedTimeout (some (.challonge "HTTP 504")), ⟨1, [1]⟩) ∧
    async_http_retry
        (fun n => if n = 0 then AwaitOutcome.timeoutError else .success (42 : Nat))
      = (.chainedTimeout (some .timeout), ⟨1, []⟩) :=
  ⟨(async_http_retry_exhausts_to_chained_timeout _).1 "HTTP 504" rfl rfl,
   (async_http_retry_exhausts_to_chained_timeout _).2 rfl⟩

/-- C8: a `ChallongeException` whose message does not contain "504" is
re-raised immediately and unchanged — one await, no `asyncio.sleep`, the
very same exception value; a successful await returns the operation's
result. -/
theorem async_http_retry_propagates_non_504 {α : Type}
    (coro : Nat → AwaitOutcome α) :
    (∀ msg, coro 0 = .challongeError msg → strContains msg "504" = false →
      async_http_retry coro = (.raised (.challonge msg), ⟨1, []⟩)) ∧
    (∀ v, coro 0 = .success v →
      async_http_retry coro = (.ok v, ⟨1, []⟩)) := by
  constructor
  · intro msg h h504
    simp [async_http_retry, range_one, async_http_retry.go, h, h504]
  · intro v h
    simp [async_http_retry, range_one, async_http_retry.go, h]

/-- Witness for C8 at a non-504 error and at a success. -/
theorem async_http_retry_propagates_non_504_witness :
    async_http_retry (fun _ => AwaitOutcome.challongeError "401 unauthorized" (α := Nat))
      = (.raised (.challonge "401 unauthorized"), ⟨1, []⟩) ∧
    async_http_retry (fun _ => AwaitOutcome.success (7 : Nat))
      = (.ok 7, ⟨1, []⟩) :=
  ⟨(async_http_retry_propagates_non_504 _).1 "401 unauthorized" rfl rfl,
   (async_http_retry_propagates_non_504 _).2 7 rfl⟩

/-- C3: the `only_phase` hook aborts with "There's no ongoing tournament."
when no tournament is registered for the guild; with a tournament and an
empty allowed-phase list it allows execution whatever the phase; with a
non-empty list it allows execution iff the current phase is a member,
aborting with the generic failure otherwise. -/
theorem only_phase_spec (allowed_phases : List String)
    (tournaments : Nat → Option Tournament) (guildId : Nat) :
    (tournaments guildId = none →
      only_phase_hook allowed_phases tournaments guildId
        = .userFeedbackFailure "There's no ongoing tournament.") ∧
    (∀ t, tournaments guildId = some t → allowed_phases = [] →
      only_phase_hook allowed_phases tournaments guildId = .ok) ∧
    (∀ t, tournaments guildId = some t → allowed_phases ≠ [] →
      (only_phase_hook allowed_phases tournaments guildId = .ok ↔
        t.phase ∈ allowed_phases) ∧
      (t.phase ∉ allowed_phases →
        only_phase_hook allowed_phases tournaments guildId
          = .userFeedbackFailure "This command cannot be executed right now.")) := by
  refine ⟨fun h => by simp [only_phase_hook, h], fun t ht he => ?_, fun t ht hne => ?_⟩
  · simp [only_phase_hook, ht, he]
  · by_cases hp : t.phase ∈ allowed_phases <;>
      simp [only_phase_hook, ht, hp, List.isEmpty_iff, hne]

/-- Witness for C3: each branch exercised at concrete inputs. -/
theorem only_phase_spec_witness :
    only_phase_hook ["ongoing"] (fun _ => none) 1
       = .userFeedbackFailure "There's no ongoing tournament." ∧
    only_phase_hook [] (fun _ => some ⟨"pending", none⟩) 1 = .ok ∧
    (only_phase_hook ["ongoing"] (fun _ => some ⟨"pending", none⟩) 1 = .ok ↔
      "pending" ∈ ["ongoing"]) ∧
    only_phase_hook ["ongoing"] (fun _ => some ⟨"pending", none⟩) 1
       = .userFeedbackFailure "This command cannot be executed right now." :=
  ⟨(only_phase_spec ["ongoing"] (fun _ => none) 1).1 rfl,
   (only_phase_spec [] (fun _ => some ⟨"pending", none⟩) 1).2.1
     ⟨"pending", none⟩ rfl rfl,
   ((only_phase_spec ["ongoing"] (fun _ => some ⟨"pending", none⟩) 1).2.2
     ⟨"pending", none⟩ rfl (by simp)).1,
   ((only_phase_spec ["ongoing"] (fun _ => some ⟨"pending", none⟩) 1).2.2
     ⟨"pending", none⟩ rfl (by simp)).2 (by decide)⟩

/-- C4: `mod_or_to`'s check is a total boolean predicate: with no guild it
is `false`; with a guild it is `true` exactly when the invoker is the
guild owner, an administrator, a recognized moderator, a recognized bot
owner, or a registered tournament exists whose organizer role the invoker
holds; and when none of the first five conditions holds and no tournament
is registered, the lookup failure yields `false`, not an error. -/
theorem mod_or_to_spec (ctx : CheckContext) :
    (ctx.guild = none → mod_or_to_check ctx = false) ∧
    (∀ g, ctx.guild = some g →
      (mod_or_to_check ctx = true ↔
        ctx.author_id = g.owner_id ∨ ctx.author_is_admin = true ∨
          ctx.bot_is_mod = true ∨ ctx.bot_is_owner = true ∨
          ∃ t r, ctx.tournaments g.id = some t ∧ t.to_role = some r ∧
            r ∈ ctx.author_roles) ∧
      (ctx.tournaments g.id = none → ctx.author_id ≠ g.owner_id →
        ctx.author_is_admin = false → ctx.bot_is_mod = false →
        ctx.bot_is_owner = false → mod_or_to_check ctx = false)) := by
  refine ⟨fun h => by simp [mod_or_to_check, h], fun g hg => ⟨?_, ?_⟩⟩
  · by_cases h1 : ctx.author_id = g.owner_id
    · simp [mod_or_to_check, hg, h1]
    by_cases h2 : ctx.author_is_admin
    · simp [mod_or_to_check, hg, h1, h2]
    by_cases h3 : ctx.bot_is_mod
    · simp [mod_or_to_check, hg, h1, h2, h3]
    by_cases h4 : ctx.bot_is_owner
    · simp [mod_or_to_check, hg, h1, h2, h3, h4]
    cases ht : ctx.tournaments g.id with
    | none => simp [mod_or_to_check, hg, h1, h2, h3, h4, ht]
    | some t =>
      cases hr : t.to_role with
      | none => simp [mod_or_to_check, hg, h1, h2, h3, h4, ht, hr]
      | some role =>
        simp [mod_or_to_check, hg, h1, h2, h3, h4, ht, hr]
  · intro ht h1 h2 h3 h4
    simp [mod_or_to_check, hg, h1, h2, h3, h4, ht]

/-- Witness for C4: no-guild context and registered-tournament-absent
context both evaluate to `false`. -/
theorem mod_or_to_spec_witness :
    mod_or_to_check ⟨none, 1, false, [], false, false, fun _ => none⟩ = false ∧
    mod_or_to_check ⟨some ⟨4, 2⟩, 3, false, [], false, false, fun _ => none⟩
      = false :=
  ⟨(mod_or_to_spec _).1 rfl,
   ((mod_or_to_spec _).2 ⟨4, 2⟩ rfl).2 rfl (by decide) rfl rfl rfl⟩

/-- C5: when at least one credential entry is unset, the
`credentials_check` hook aborts with the configure-credentials message,
which contains the invocation's clean prefix; when every entry is set it
allows execution. -/
theorem credentials_check_spec (pfx : String)
    (credentials : List (String × Option String)) :
    ((∃ p ∈ credentials, p.2 = none) →
      credentials_check_hook pfx credentials
        = .userFeedbackFailure
          ("You need to set your Challonge credentials before using this command! Use `"
            ++ pfx ++ "help challongeset` for more info.")) ∧
    ((∃ p ∈ credentials, p.2 = none) →
      ∃ pre post, credentials_check_hook pfx credentials
        = .userFeedbackFailure (pre ++ pfx ++ post)) ∧
    ((∀ p ∈ credentials, p.2 ≠ none) →
      credentials_check_hook pfx credentials = .ok) := by
  have hcond : ((credentials.map Prod.snd).any (fun x => x.isNone)) = true ↔
      ∃ p ∈ credentials, p.2 = none := by
    simp [List.any_eq_true, Option.isNone_iff_eq_none]
  refine ⟨fun h => ?_, fun h => ?_, fun h => ?_⟩
  · simp [credentials_check_hook, hcond.mpr h, credentialsMessage]
  · exact ⟨"You need to set your Challonge credentials before using this command! Use `",
      "help challongeset` for more info.",
      by simp [credentials_check_hook, hcond.mpr h, credentialsMessage]⟩
  · have : ¬ ((credentials.map Prod.snd).any (fun x => x.isNone)) = true := by
      simp only [hcond]
      push_neg
      exact fun p hp => h p hp
    simp [credentials_check_hook, this]

/-- Witness for C5: one unset entry aborts with the prefix-bearing
message; an all-set mapping passes. -/
theorem credentials_check_spec_witness :
    credentials_check_hook "!" [("username", some "u"), ("api_key", none)]
      = .userFeedbackFailure
        ("You need to set your Challonge credentials before using this command! Use `"
          ++ "!" ++ "help challongeset` for more info.") ∧
    (∃ pre post,
      credentials_check_hook "!" [("username", some "u"), ("api_key", none)]
        = .userFeedbackFailure (pre ++ "!" ++ post)) ∧
    credentials_check_hook "!" [("username", some "u"), ("api_key", some "k")]
      = .ok :=
  ⟨(credentials_check_spec "!" _).1 ⟨("api_key", none), by simp, rfl⟩,
   (credentials_check_spec "!" _).2.1 ⟨("api_key", none), by simp, rfl⟩,
   (credentials_check_spec "!" _).2.2 (by simp)⟩

/-- C9: an entirely empty credential mapping passes the gate — `any` over
zero values is `False`, so `credentials_check` allows execution. -/
theorem credentials_check_empty_mapping (pfx : String) :
    credentials_check_hook pfx [] = .ok := rfl

/-- C6: `prompt_yes_or_no` returns `True` iff the wait resolves with an
interaction bearing the approve id; on any other resolved interaction it
returns `False`, sending exactly one "Cancelled." notice iff
`negative_response`; on timeout it returns `False` and sends exactly one
"Request timed out." notice. -/
theorem prompt_yes_or_no_outcomes (ctx : PromptCtx) (content : Option String)
    (embed : Option Nat) (timeout : Nat)
    (delete_after negative_response : Bool)
    (events : List (Nat × Interaction)) :
    ((prompt_yes_or_no ctx content embed timeout delete_after negative_response
          events).1 = .returned true ↔
      ∃ i, runWait (check_same_user ctx) timeout events = .got i ∧
        i.custom_id = some (approve_custom_id ctx)) ∧
    (∀ i, runWait (check_same_user ctx) timeout events = .got i →
      i.custom_id ≠ some (approve_custom_id ctx) →
      (prompt_yes_or_no ctx content embed timeout delete_after negative_response
          events).1 = .returned false ∧
      (prompt_yes_or_no ctx content embed timeout delete_after negative_response
          events).2.notices
        = (if negative_response then ["Cancelled."] else [])) ∧
    (runWait (check_same_user ctx) timeout events = .timedOut →
      (prompt_yes_or_no ctx content embed timeout delete_after negative_response
          events).1 = .returned false ∧
      (prompt_yes_or_no ctx content embed timeout delete_after negative_response
          events).2.notices = ["Request timed out."]) := by
  refine ⟨?_, fun i hw hid => ?_, fun hw => ?_⟩
  · rw [prompt_yes_or_no]
    cases hw : runWait (check_same_user ctx) timeout events with
    | got i =>
      by_cases hid : i.custom_id = some (approve_custom_id ctx)
      · simp [(prompt_core_got_approve content embed delete_after
          negative_response ctx i hid).1, hid]
      · simp [(prompt_core_got_other content embed delete_after
          negative_response ctx i hid).1, hid]
    | timedOut =>
      simp [(prompt_core_timed_out content embed delete_after
        negative_response ctx).1]
    | failed => exact absurd hw (runWait_ne_failed _ _ _)
  · rw [prompt_yes_or_no, hw]
    exact prompt_core_got_other content embed delete_after negative_response
      ctx i hid
  · rw [prompt_yes_or_no, hw]
    exact prompt_core_timed_out content embed delete_after negative_response ctx

/-- Witness for C6: approval resolves to `True`; with no event the prompt
times out, returns `False` and sends the timeout notice. -/
theorem prompt_yes_or_no_outcomes_witness :
    ((prompt_yes_or_no ⟨1, 10⟩ none none 30 true true
        [(0, ⟨10, some "yes-1"⟩)]).1 = .returned true ↔
      ∃ i, runWait (check_same_user ⟨1, 10⟩) 30 [(0, ⟨10, some "yes-1"⟩)]
          = .got i ∧ i.custom_id = some (approve_custom_id ⟨1, 10⟩)) ∧
    ((prompt_yes_or_no ⟨1, 10⟩ none none 30 true false
        [(2, ⟨10, some "nope"⟩)]).1 = .returned false ∧
      (prompt_yes_or_no ⟨1, 10⟩ none none 30 true false
        [(2, ⟨10, some "nope"⟩)]).2.notices
        = (if false then ["Cancelled."] else [])) ∧
    (prompt_yes_or_no ⟨1, 10⟩ none none 30 true true []).1 = .returned false ∧
    (prompt_yes_or_no ⟨1, 10⟩ none none 30 true true []).2.notices
      = ["Request timed out."] :=
  ⟨(prompt_yes_or_no_outcomes ⟨1, 10⟩ none none 30 true true
      [(0, ⟨10, some "yes-1"⟩)]).1,
   (prompt_yes_or_no_outcomes ⟨1, 10⟩ none none 30 true false
      [(2, ⟨10, some "nope"⟩)]).2.1 ⟨10, some "nope"⟩ rfl (by decide),
   (prompt_yes_or_no_outcomes ⟨1, 10⟩ none none 30 true true []).2.2 rfl⟩

/-- C7: on every path out of the `try` — approval, denial, timeout, and an
unexpected error during response handling (`WaitOutcome.failed`, which
propagates) — the `finally` clause runs exactly once: the prompt message
is deleted when `delete_after` is set, otherwise it is edited exactly once
to drop the button view while keeping the original content and embed.
`prompt_yes_or_no` is this cleanup composed with the event wait. -/
theorem prompt_cleanup_exactly_once (ctx : PromptCtx) (content : Option String)
    (embed : Option Nat) (timeout : Nat)
    (delete_after negative_response : Bool) (w : WaitOutcome) :
    (prompt_core content embed delete_after negative_response ctx w).2.deletes
        + (prompt_core content embed delete_after negative_response ctx w).2.edits
      = 1 ∧
    (prompt_core content embed delete_after negative_response ctx w).2.deletes
      = (if delete_after then 1 else 0) ∧
    (prompt_core content embed delete_after negative_response ctx w).2.message
      = (if delete_after then none
         else some { content := content, embed := embed, has_view := false }) ∧
    ∀ events, prompt_yes_or_no ctx content embed timeout delete_after
        negative_response events
      = prompt_core content embed delete_after negative_response ctx
          (runWait (check_same_user ctx) timeout events) := by
  cases delete_after <;> simp [prompt_core, prompt_yes_or_no]

/-- C10: any interaction that resolves the wait (hence authored by the
invoker) whose custom id differs from this prompt's approve id — the deny
id, an unrelated button's id, or another prompt's id — is treated as a
denial: `False` is returned and "Cancelled." is sent iff
`negative_response`. -/
theorem prompt_non_approve_id_denies (ctx : PromptCtx) (content : Option String)
    (embed : Option Nat) (timeout : Nat)
    (delete_after negative_response : Bool)
    (events : List (Nat × Interaction)) (i : Interaction)
    (hw : runWait (check_same_user ctx) timeout events = .got i)
    (hid : i.custom_id ≠ some (approve_custom_id ctx)) :
    (prompt_yes_or_no ctx content embed timeout delete_after negative_response
        events).1 = .returned false ∧
    (prompt_yes_or_no ctx content embed timeout delete_after negative_response
        events).2.notices
      = (if negative_response then ["Cancelled."] else []) := by
  rw [prompt_yes_or_no, hw]
  exact prompt_core_got_other content embed delete_after negative_response
    ctx i hid

/-- Witness for C10: the invoker presses the deny button of this prompt
(message id 1): denial with one "Cancelled." notice. -/
theorem prompt_non_approve_id_denies_witness :
    (prompt_yes_or_no ⟨1, 10⟩ none none 30 true true
        [(0, ⟨10, some "no-1"⟩)]).1 = .returned false ∧
    (prompt_yes_or_no ⟨1, 10⟩ none none 30 true true
        [(0, ⟨10, some "no-1"⟩)]).2.notices
      = (if true then ["Cancelled."] else []) :=
  prompt_non_approve_id_denies ⟨1, 10⟩ none none 30 true true
    [(0, ⟨10, some "no-1"⟩)] ⟨10, some "no-1"⟩ rfl (by decide)

/-- C2 counterexample: the prompt of invoking message 1 (author 10) awaits
with ids "yes-1"/"no-1".  An interaction authored by the invoker but
carrying another prompt's identifier "yes-999" resolves this prompt's
suspension — the wait returns it (no timeout outcome) and the call returns
a denial with a "Cancelled." notice.  The correlation identifier therefore
does not prevent a response belonging to a different concurrent prompt
from resolving this prompt: only the user identity is checked before
resolving. -/
theorem prompt_cross_prompt_resolves :
    runWait (check_same_user ⟨1, 10⟩) 30 [(0, ⟨10, some "yes-999"⟩)]
        = .got ⟨10, some "yes-999"⟩ ∧
    prompt_yes_or_no ⟨1, 10⟩ none none 30 true true
        [(0, ⟨10, some "yes-999"⟩)]
      = (.returned false,
         { notices := ["Cancelled."], deletes := 1, edits := 0,
           message := none }) :=
  ⟨rfl, rfl⟩

/-- C2 (amended): interactions authored by anyone other than the invoker
are ignored entirely — removing them from the event stream changes
nothing, so they neither resolve the suspension nor reset or extend the
timeout; the correlation identifier, however, is only consulted after the
wait resolves: a same-user response carrying a different prompt's
identifier still resolves this prompt, as a denial. -/
theorem prompt_identity_check_spec (ctx : PromptCtx) (content : Option String)
    (embed : Option Nat) (timeout : Nat)
    (delete_after negative_response : Bool)
    (events : List (Nat × Interaction)) :
    (prompt_yes_or_no ctx content embed timeout delete_after negative_response
        events
      = prompt_yes_or_no ctx content embed timeout delete_after
          negative_response
          (events.filter (fun e => check_same_user ctx e.2))) ∧
    (∀ i, runWait (check_same_user ctx) timeout events = .got i →
      i.custom_id ≠ some (approve_custom_id ctx) →
      (prompt_yes_or_no ctx content embed timeout delete_after
          negative_response events).1 = .returned false) := by
  constructor
  · rw [prompt_yes_or_no, prompt_yes_or_no, runWait, runWait, wait_for,
      wait_for, find?_filter_of_check]
  · intro i hw hid
    rw [prompt_yes_or_no, hw]
    exact (prompt_core_got_other content embed delete_after negative_response
      ctx i hid).1

/-- Witness for C2 (amended): a stranger's approve press (author 99) is
ignored and the prompt times out; the invoker's press of a foreign id
resolves as denial. -/
theorem prompt_identity_check_spec_witness :
    (prompt_yes_or_no ⟨1, 10⟩ none none 30 true true [(0, ⟨99, some "yes-1"⟩)]
      = prompt_yes_or_no ⟨1, 10⟩ none none 30 true true
          (([(0, ⟨99, some "yes-1"⟩)] : List (Nat × Interaction)).filter
            (fun e => check_same_user ⟨1, 10⟩ e.2))) ∧
    (prompt_yes_or_no ⟨1, 10⟩ none none 30 true true
        [(0, ⟨10, some "no-999"⟩)]).1 = .returned false :=
  ⟨(prompt_identity_check_spec ⟨1, 10⟩ none none 30 true true
      [(0, ⟨99, some "yes-1"⟩)]).1,
   (prompt_identity_check_spec ⟨1, 10⟩ none none 30 true true
      [(0, ⟨10, some "no-999"⟩)]).2 ⟨10, some "no-999"⟩ rfl (by decide)⟩

end Tournaments
